import Mathlib

/-!
Shallow embedding of the scatter-plot configuration-and-rendering pipeline in
`src/scanpy/plotting/_tools/scatterplots.py`, together with theorems settling
the specification claims about it.

Python numbers are modelled by `ℚ` (plus explicit NaN/infinity markers where
the code can see them), Python exceptions by `Except`, and the mutation of the
annotated-data container by explicit state passing.
-/

namespace Scatter

/-- Python exceptions that the embedded code can raise. -/
inductive PyErr where
  | valueError
  | typeError
  | keyError
  | indexError
deriving DecidableEq, Repr

deriving instance DecidableEq for Except

/-- A Python `float` object: a finite rational, NaN, or an infinity. -/
inductive PyFloat where
  | fin (q : ℚ)
  | nan
  | posInf
  | negInf
deriving DecidableEq, Repr

/-- Whether a Python float is a finite number. -/
def PyFloat.isFinite : PyFloat → Bool
  | .fin _ => true
  | _ => false

/-- Python values that can appear as a `vmin`/`vmax` bound or as the result of
a user-supplied bound callable. -/
inductive PyVal where
  | float (x : PyFloat)
  | int (n : ℤ)
  | str (s : String)
  | other
deriving DecidableEq, Repr

/-- Whitespace recognizer used by Python's `str.strip` /
numeric-literal stripping (ASCII subset). -/
def isPySpace (c : Char) : Bool :=
  c = ' ' || c = '\t' || c = '\n' || c = '\r'

/-- Strip leading and trailing whitespace from a character list
(Python's `str.strip`). -/
def trimChars (cs : List Char) : List Char :=
  ((cs.dropWhile isPySpace).reverse.dropWhile isPySpace).reverse

/-- Split a character list on the comma separator (Python's
`str.split(',')`). -/
def splitOnComma : List Char → List (List Char)
  | [] => [[]]
  | c :: rest =>
    if c = ',' then [] :: splitOnComma rest
    else
      match splitOnComma rest with
      | [] => [[c]]
      | p :: ps => (c :: p) :: ps

/-- Numeric value of a list of decimal digit characters. -/
def digitsToNat (cs : List Char) : ℕ :=
  cs.foldl (fun a c => a * 10 + (c.toNat - 48)) 0

/-- Parse an unsigned decimal literal (`"12"`, `"12.5"`, `".5"`, `"1."`). -/
def parseUnsigned (cs : List Char) : Option ℚ :=
  let intPart := cs.takeWhile Char.isDigit
  let rest := cs.dropWhile Char.isDigit
  match rest with
  | [] => if intPart.isEmpty then none else some (digitsToNat intPart)
  | '.' :: frac =>
    if frac.all Char.isDigit && !(intPart.isEmpty && frac.isEmpty) then
      some ((digitsToNat intPart : ℚ) + (digitsToNat frac : ℚ) / (10 ^ frac.length))
    else none
  | _ => none

/-- Model of CPython's `float(str)` parsing for plain decimal literals:
optional surrounding whitespace, optional sign, digits with an optional
fractional part.  Anything else fails with `ValueError`. -/
def parseDecimal (s : String) : Option ℚ :=
  match trimChars s.data with
  | '-' :: cs => (parseUnsigned cs).map (fun q => -q)
  | '+' :: cs => parseUnsigned cs
  | cs => parseUnsigned cs

/-- Model of CPython's `int(str)`: optional surrounding whitespace, optional
sign, one or more decimal digits. -/
def parseInt (cs : List Char) : Option ℤ :=
  match trimChars cs with
  | '-' :: ds =>
    if ds.isEmpty || !ds.all Char.isDigit then none
    else some (-(digitsToNat ds : ℤ))
  | '+' :: ds =>
    if ds.isEmpty || !ds.all Char.isDigit then none
    else some (digitsToNat ds : ℤ)
  | ds =>
    if ds.isEmpty || !ds.all Char.isDigit then none
    else some (digitsToNat ds : ℤ)

/-- The builtin `float(...)` applied to a Python value: floats pass through,
ints are widened, strings are parsed (`ValueError` on failure), anything else
raises `TypeError`. -/
def pyFloatOf : PyVal → Except PyErr PyFloat
  | .float x => .ok x
  | .int n => .ok (.fin (n : ℚ))
  | .str s =>
    match parseDecimal s with
    | some q => .ok (.fin q)
    | none => .error .valueError
  | .other => .error .typeError

/-- Model of `np.nanpercentile(v, q)`: drop NaN entries, sort, and linearly
interpolate at position `q/100 * (m-1)`; `q` outside `[0, 100]` raises, and an
all-NaN vector yields NaN. -/
def nanpercentile (v : List (Option ℚ)) (q : ℚ) : Except PyErr PyFloat :=
  if q < 0 ∨ 100 < q then .error .valueError
  else
    let vals := (v.filterMap id).mergeSort (fun a b => decide (a ≤ b))
    match vals with
    | [] => .ok .nan
    | _ =>
      let m := vals.length
      let pos : ℚ := q / 100 * ((m : ℚ) - 1)
      let i : ℕ := (Int.floor pos).toNat
      let frac : ℚ := pos - Int.floor pos
      let lo := vals.getD i 0
      let hi := vals.getD (min (i + 1) (m - 1)) 0
      .ok (.fin (lo + frac * (hi - lo)))

/-- Python's `s.startswith('p')`. -/
def startsWithP (s : String) : Bool :=
  match s.data with
  | 'p' :: _ => true
  | _ => false

/-- Python's `s[1:]`. -/
def strTail (s : String) : String :=
  String.mk (s.data.drop 1)

/-- A `vmin`/`vmax` bound as passed by the caller: Python `None`, a plain
value (number or string), or a callable reducing the color vector. -/
inductive Bound where
  | none
  | val (v : PyVal)
  | callable (f : List (Option ℚ) → PyVal)

/-- Selection of the panel's bound from the user-supplied list, embedding the
`len(v) == 1` shortcut and the logged-and-recovered `IndexError` branch of
`_get_vmin_vmax` (an out-of-range index resolves the bound to `None`). -/
def selectBound (v : List Bound) (index : ℕ) : Bound :=
  if v.length = 1 then v.headD .none
  else v.getD index .none

/-- Resolution of one selected `vmin`/`vmax` bound against the panel's color
vector, embedding the body of the `for v_name, v in ...` loop of
`_get_vmin_vmax` (`scatterplots.py:516-546`).  Note that in the percentile
branch the malformed-suffix `ValueError` is caught (and logged) only around
the first `float(v_value[1:])`; the second evaluation at the
`np.nanpercentile` call is outside the `try` and therefore propagates. -/
def resolveOneBound (cv : List (Option ℚ)) (b : Bound) : Except PyErr (Option PyVal) :=
  match b with
  | .none => .ok none
  | .callable f =>
    match f cv with
    | .float x => .ok (some (.float x))
    | _ => .ok none
  | .val v =>
    match v with
    | .str s =>
      if startsWithP s then
        match pyFloatOf (.str (strTail s)) with
        | .error e => .error e
        | .ok x =>
          match x with
          | .fin q => (nanpercentile cv q).map (fun r => some (.float r))
          | _ => .error .valueError
      else
        match pyFloatOf (.str s) with
        | .ok _ => .ok (some (.str s))
        | .error _ => .ok none
    | w =>
      match pyFloatOf w with
      | .ok _ => .ok (some w)
      | .error .valueError => .ok none
      | .error e => .error e

/-- Embedding of `_get_vmin_vmax`: resolve the panel's `vmin` then `vmax`. -/
def get_vmin_vmax (vmin vmax : List Bound) (index : ℕ) (cv : List (Option ℚ)) :
    Except PyErr (Option PyVal × Option PyVal) := do
  let a ← resolveOneBound cv (selectBound vmin index)
  let b ← resolveOneBound cv (selectBound vmax index)
  return (a, b)

/-! ## Component selection (`_get_data_points`) -/

/-- The `components` argument of `embedding`/`_get_data_points`: `None`, a
single string, a list of ints, or a list of strings. -/
inductive Components where
  | none
  | str (s : String)
  | ints (l : List ℤ)
  | strs (l : List String)
deriving DecidableEq, Repr

/-- The combinations emitted by `itertools.combinations`, in the same
(lexicographic, input-order-preserving) order. -/
def combinations {α : Type} : ℕ → List α → List (List α)
  | 0, _ => [[]]
  | _ + 1, [] => []
  | r + 1, x :: xs => (combinations r xs).map (fun c => x :: c) ++ combinations (r + 1) xs

/-- Comma-join of character lists (Python's `",".join(...)`). -/
def joinComma : List (List Char) → List Char
  | [] => []
  | [c] => c
  | c :: cs => c ++ ',' :: joinComma cs

/-- Expansion of `components == 'all'` in `_get_data_points`
(`scatterplots.py:931-938`): all pairs (or triples in 3D) of the 1-based axis
numbers, rendered back to comma-joined strings. -/
def expandAll (nAxes : ℕ) (proj3d : Bool) : List String :=
  let r := if proj3d then 3 else 2
  let axes := (List.range nAxes).map (fun i => i + 1)
  (combinations r axes).map
    (fun x => String.mk (joinComma (x.map (fun n => Nat.toDigits 10 n))))

/-- Parse one comma-separated component string, embedding
`tuple(int(x.strip()) - 1 + offset for x in comp.split(','))`; a
non-integer part raises `ValueError` like Python's `int`. -/
def parseCompStr (offset : ℤ) (s : String) : Except PyErr (List ℤ) :=
  (splitOnComma s.data).mapM (fun t =>
    match parseInt t with
    | some n => Except.ok (n - 1 + offset)
    | Option.none => Except.error PyErr.valueError)

/-- The `if isinstance ... elif ... else raise` chain of `_get_data_points`
(`scatterplots.py:944-972`) building `components_list` for a given offset:
a string is one comma-separated selection, a list of ints one selection, a
list of strings one selection per string; an empty list hits the
`components[0]` probe and raises `IndexError`. -/
def componentsAux (offset : ℤ) : Components → Except PyErr (List (List ℤ))
  | .none => Except.ok []
  | .str s => (parseCompStr offset s).map (fun c => [c])
  | .ints [] => Except.error PyErr.indexError
  | .ints (x :: xs) => Except.ok [(x :: xs).map (fun y => y - 1 + offset)]
  | .strs [] => Except.error PyErr.indexError
  | .strs (t :: ts) => (t :: ts).mapM (parseCompStr offset)

/-- The `components_list` of `_get_data_points` as it stands at the slicing
step (`scatterplots.py:931-977`): the `'all'` spec is first expanded, then the
axis indices actually used to slice the coordinate table are parsed,
including the `diffmap` offset of 1. -/
def componentsForSlicing (basis : String) (nAxes : ℕ) (proj3d : Bool)
    (comps : Components) : Except PyErr (List (List ℤ)) :=
  let offset : ℤ := if basis = "diffmap" then 1 else 0
  let comps := if comps = Components.str "all"
    then Components.strs (expandAll nAxes proj3d) else comps
  componentsAux offset comps

/-- The `components_list` returned by `_get_data_points`
(`scatterplots.py:984-989`): for `diffmap` the offset added for slicing is
subtracted back out so the reported labels are plain zero-based indices. -/
def componentsReported (basis : String) (nAxes : ℕ) (proj3d : Bool)
    (comps : Components) : Except PyErr (List (List ℤ)) :=
  (componentsForSlicing basis nAxes proj3d comps).map (fun cl =>
    if basis = "diffmap" then cl.map (fun c => c.map (fun n => n - 1)) else cl)

/-! ## Draw order (`embedding`, `scatterplots.py:254-267`) -/

/-- The strict comparison used by `np.argsort` on (possibly negated) float
data: NaN (modelled as `none`) compares greater than every number, so it
sorts to the end in ascending order. -/
def npLt (a b : Option ℚ) : Bool :=
  match a, b with
  | some x, some y => decide (x < y)
  | some _, none => true
  | none, _ => false

/-- Strict comparison on booleans (`False < True`), the order `np.argsort`
uses on the `~pd.isnull(...)` mask. -/
def boolLt (a b : Bool) : Bool :=
  !a && b

/-- Stable `np.argsort` over a key vector: indices `0..n-1` sorted by key,
ties broken by original position (`kind="stable"`). -/
def argsortBy {α : Type} (lt : α → α → Bool) (key : List α) : List ℕ :=
  (List.range key.length).mergeSort (fun i j =>
    match key.get? i, key.get? j with
    | some a, some b =>
      if lt a b then true
      else if lt b a then false
      else decide (i ≤ j)
    | _, _ => decide (i ≤ j))

/-- The draw order computed by the `embedding` orchestrator: for a continuous
vector `np.argsort(-color_vector, kind="stable")[::-1]` (highest values drawn
last, NaN first), for a categorical one with `sort_order`
`np.argsort(~pd.isnull(color_source_vector), kind="stable")` (null points
first), and the identity slice otherwise. -/
def drawOrder (n : ℕ) (sortOrder : Bool) (valueToPlot : Option String)
    (categorical : Bool) (cv : List (Option ℚ)) (csv : List (Option String)) :
    List ℕ :=
  if sortOrder = true ∧ valueToPlot ≠ none ∧ categorical = false then
    (argsortBy npLt (cv.map (Option.map (fun q => -q)))).reverse
  else if sortOrder ∧ categorical then
    argsortBy boolLt (csv.map (fun v => !v.isNone))
  else
    List.range n

/-- Fancy indexing `xs[order]` applied to a per-point array. -/
def applyOrder {α : Type} (o : List ℕ) (xs : List α) (d : α) : List α :=
  o.map (fun i => xs.getD i d)

/-- The inverse of a draw order: position `j` holds the index at which `j`
appears in the order. -/
def invOrder (o : List ℕ) : List ℕ :=
  (List.range o.length).map (fun j => o.indexOf j)

/-! ## Annotated-data container, palette resolution and categorical colors -/

/-- A pandas `Categorical`: per-sample optional labels (`none` is a missing
value) plus the declared category list. -/
structure Categorical where
  values : List (Option String)
  categories : List String
deriving DecidableEq, Repr

/-- The slice of the annotated-data container touched by the palette code:
per-sample annotation columns (`obs`) and the unstructured metadata (`uns`)
holding cached `<key>_colors` lists. -/
structure AnnData where
  obs : List (String × Categorical)
  uns : List (String × List String)
  n_obs : ℕ
deriving DecidableEq, Repr

/-- Dictionary lookup in an association list. -/
def alookup {β : Type} : List (String × β) → String → Option β
  | [], _ => none
  | (k, v) :: rest, key => if k = key then some v else alookup rest key

/-- Dictionary assignment `m[key] = v` in an association list. -/
def aset {β : Type} : List (String × β) → String → β → List (String × β)
  | [], key, v => [(key, v)]
  | (k, w) :: rest, key, v =>
    if k = key then (key, v) :: rest else (k, w) :: aset rest key v

def defaultColors (n : ℕ) : List String :=
  (List.range n).map (fun i => String.mk ('d' :: Nat.toDigits 10 i))

/-- Modelled from the spec: `_set_default_colors_for_categorical_obs` stores
a deterministically generated palette, one color per declared category, on
the container under `<key>_colors`. -/
def set_default_colors_for_categorical_obs (adata : AnnData) (key : String) :
    Except PyErr AnnData :=
  match alookup adata.obs key with
  | none => Except.error PyErr.keyError
  | some c =>
    Except.ok { adata with
      uns := aset adata.uns (key ++ "_colors") (defaultColors c.categories.length) }

/-- Modelled from the spec: `_set_colors_for_categorical_obs` (also in the
out-of-slice `scanpy.plotting._utils`) stores a user-supplied palette on the
container; per the spec it is validated for the palette invariant, a palette
with fewer colors than categories being a fatal error. -/
def set_colors_for_categorical_obs (adata : AnnData) (key : String)
    (palette : List String) : Except PyErr AnnData :=
  match alookup adata.obs key with
  | none => Except.error PyErr.keyError
  | some c =>
    if palette.length < c.categories.length then Except.error PyErr.valueError
    else Except.ok { adata with uns := aset adata.uns (key ++ "_colors") palette }

/-- Modelled from the spec: `_validate_palette` (out-of-slice) only checks
that the cached colors are valid color specifications; validating an
already-sufficient palette leaves the container unchanged. -/
def validate_palette (adata : AnnData) (_key : String) : AnnData :=
  adata

/-- Python truthiness of the optional `palette` argument (`if palette:`); an
empty list is falsy. -/
def paletteTruthy : Option (List String) → Bool
  | some l => !l.isEmpty
  | none => false

/-- Embedding of `_get_palette` (`scatterplots.py:1094-1106`): resolve (and
possibly rewrite) the cached `<values_key>_colors` entry, then return
`dict(zip(values.categories, adata.uns[color_key]))` together with the
resulting container state. -/
def get_palette (adata : AnnData) (values_key : String)
    (palette : Option (List String)) :
    Except PyErr (AnnData × List (String × String)) :=
  let color_key := values_key ++ "_colors"
  match alookup adata.obs values_key with
  | none => Except.error PyErr.keyError
  | some values =>
    let step : Except PyErr AnnData :=
      if paletteTruthy palette then
        set_colors_for_categorical_obs adata values_key (palette.getD [])
      else
        match alookup adata.uns color_key with
        | none => set_default_colors_for_categorical_obs adata values_key
        | some cs =>
          if cs.length < values.categories.length then
            set_default_colors_for_categorical_obs adata values_key
          else Except.ok (validate_palette adata values_key)
    match step with
    | Except.error e => Except.error e
    | Except.ok a1 =>
      match alookup a1.uns color_key with
      | none => Except.error PyErr.keyError
      | some cs => Except.ok (a1, values.categories.zip cs)

/-! ## Color vectors and the legend composer -/

/-- Matplotlib's `to_hex(color, keep_alpha=True)`, an external collaborator;
colors are abstract names in this model, so hex conversion is the
identity. -/
def to_hex (s : String) : String :=
  s

/-- The color-source values handed to `_color_vector`: a pandas categorical
column or a continuous vector (NaN as `none`). -/
inductive ColorSource where
  | cat (c : Categorical)
  | cont (v : List (Option ℚ))
deriving DecidableEq, Repr

/-- The per-point color representation returned by `_color_vector`: a vector
of hex colors (position-wise, `none` marking a not-yet-filled missing entry)
or the untouched continuous values. -/
inductive ColorVec where
  | hexes (l : List (Option String))
  | cont (v : List (Option ℚ))
deriving DecidableEq, Repr

/-- Embedding of `_color_vector` (`scatterplots.py:1109-1137`).  The pandas
categorical of colors is modelled position-wise as a list: mapping through
the palette dict leaves unmapped or null entries as `none`, and the
`add_categories`/`fillna` pair replaces them with the missing color when any
are present.  Mutation of the container by `_get_palette` is threaded
through the returned state. -/
def color_vector (adata : AnnData) (values_key : Option String)
    (values : ColorSource) (palette : Option (List String)) (na_color : String) :
    Except PyErr (AnnData × ColorVec × Bool) :=
  match values_key with
  | none =>
    Except.ok (adata,
      ColorVec.hexes (List.replicate adata.n_obs (some (to_hex na_color))), false)
  | some key =>
    match values with
    | .cont v => Except.ok (adata, ColorVec.cont v, false)
    | .cat c =>
      match get_palette adata key palette with
      | Except.error e => Except.error e
      | Except.ok (a1, color_map) =>
        let cv := c.values.map
          (fun v => (v.bind (fun s => alookup color_map s)).map to_hex)
        let cv := if cv.any Option.isNone
          then cv.map (fun o => some (o.getD (to_hex na_color)))
          else cv
        Except.ok (a1, ColorVec.hexes cv, true)

/-- pandas `pd.isnull(categorical).any()`. -/
def isnullAny (c : Categorical) : Bool :=
  c.values.any Option.isNone

/-- pandas `key in categorical`: per `Categorical.__contains__`, this tests
presence of `key` among the stored *values* (its category code occurring in
the codes array), not mere declaration as a category. -/
def pdContains (c : Categorical) (key : String) : Bool :=
  c.values.any (fun v => v == some key)

/-- pandas `Categorical.add_categories`: raises `ValueError` when the new
category is already declared. -/
def add_categories (c : Categorical) (newCat : String) : Except PyErr Categorical :=
  if newCat ∈ c.categories then Except.error PyErr.valueError
  else Except.ok (Categorical.mk c.values (c.categories ++ [newCat]))

/-- pandas `Categorical.fillna`. -/
def fillna (c : Categorical) (v : String) : Categorical :=
  Categorical.mk (c.values.map (fun o => some (o.getD v))) c.categories

/-- Failures of the legend composer. -/
inductive LegendErr where
  | notImplemented
  | pyErr (e : PyErr)
deriving DecidableEq, Repr

/-- Embedding of the null-handling prologue of `_add_categorical_legend`
(`scatterplots.py:1013-1021`): on success returns the categorical (with the
`"NA"` category appended and nulls filled when applicable) and the palette
used for rendering — a copy of the caller's palette, possibly extended with
the `"NA"` entry. -/
def add_categorical_legend (csv : Categorical)
    (palette : List (String × String)) (na_color : String)
    (na_in_legend : Bool) :
    Except LegendErr (Categorical × List (String × String)) :=
  if na_in_legend && isnullAny csv then
    if pdContains csv "NA" then Except.error LegendErr.notImplemented
    else
      match add_categories csv "NA" with
      | Except.error e => Except.error (LegendErr.pyErr e)
      | Except.ok c2 => Except.ok (fillna c2 "NA", aset palette "NA" na_color)
  else Except.ok (csv, palette)

/-! ## Spatial metadata resolution (`_check_spatial_data`) -/

/-- The `library_id` argument: the `_empty` sentinel (not passed), an
explicit `None`, or an explicit key. -/
inductive LibraryArg where
  | emptyArg
  | noneArg
  | given (s : String)
deriving DecidableEq, Repr

/-- Embedding of `_check_spatial_data` (`scatterplots.py:1194-1217`):
`uns.get("spatial", {})` is the optional spatial mapping; with no explicit
`library_id`, more than one library raises the ambiguity `ValueError`,
exactly one is auto-selected, and zero selects nothing. -/
def check_spatial_data {α : Type} (uns_spatial : Option (List (String × α)))
    (library_id : LibraryArg) : Except PyErr (Option String × Option α) :=
  let m := uns_spatial.getD []
  let lid : Except PyErr (Option String) :=
    match library_id with
    | .emptyArg =>
      if 1 < m.length then Except.error PyErr.valueError
      else
        match m with
        | (k, _) :: _ => Except.ok (some k)
        | [] => Except.ok none
    | .noneArg => Except.ok none
    | .given s => Except.ok (some s)
  match lid with
  | Except.error e => Except.error e
  | Except.ok none => Except.ok (none, none)
  | Except.ok (some k) =>
    match alookup m k with
    | some v => Except.ok (some k, some v)
    | none => Except.error PyErr.keyError

/-! ## Outlined marker sizes (`embedding`, `scatterplots.py:328-331`) -/

/-- The gap-ring marker area: `(point + (point * gap_width) * 2) ** 2` with
`point = np.sqrt(size)`. -/
noncomputable def outline_gap_size (size gap_width : ℝ) : ℝ :=
  (Real.sqrt size + (Real.sqrt size * gap_width) * 2) ^ 2

/-- The background-ring marker area:
`(np.sqrt(gap_size) + (point * bg_width) * 2) ** 2`. -/
noncomputable def outline_bg_size (size gap_width bg_width : ℝ) : ℝ :=
  (Real.sqrt (outline_gap_size size gap_width) +
    (Real.sqrt size * bg_width) * 2) ^ 2

/-! ## Theorems for the range resolver and component selection -/

/-- Helper: `mapM` over `Except` commutes with mapping a pure function over
each successful result. -/
theorem mapM_except_map_comm {α β γ : Type} (f : α → Except PyErr β) (g : β → γ)
    (l : List α) :
    l.mapM (fun a => (f a).map g) = (l.mapM f).map (List.map g) := by
  induction l with
  | nil => rfl
  | cons t ts ih =>
    simp only [List.mapM_cons]
    cases h : f t with
    | error e => simp [h, Except.map, bind, Except.bind]
    | ok b =>
      rw [ih]
      cases hts : ts.mapM f with
      | error e => simp [h, hts, Except.map, bind, Except.bind]
      | ok bs => simp [h, hts, Except.map, bind, Except.bind, pure, Except.pure]

/-- Helper: the axis offset enters `parseCompStr` as a uniform shift of every
parsed index. -/
theorem parseCompStr_offset (off : ℤ) (s : String) :
    parseCompStr off s = (parseCompStr 0 s).map (List.map (fun n => n + off)) := by
  unfold parseCompStr
  generalize splitOnComma s.data = l
  induction l with
  | nil => rfl
  | cons t ts ih =>
    simp only [List.mapM_cons]
    cases ht : parseInt t with
    | none => simp [ht, Except.map, bind, Except.bind]
    | some n =>
      rw [ih]
      cases hts : ts.mapM (fun t => match parseInt t with
          | some n => Except.ok (n - 1 + 0)
          | Option.none => Except.error PyErr.valueError) with
      | error e => simp [ht, hts, Except.map, bind, Except.bind]
      | ok bs =>
        simp [ht, hts, Except.map, bind, Except.bind, pure, Except.pure]

/-- C2: a `vmin`/`vmax` percentile string whose suffix does not parse as a
number does not resolve to `None`: the logged `ValueError` is re-raised by the
second `float(v_value[1:])` at the `np.nanpercentile` call, which sits outside
the `try`, so `_get_vmin_vmax` aborts instead of recovering.  Evaluated here
at the failing input `vmin="p1x"`. -/
theorem malformed_percentile_bound_raises :
    get_vmin_vmax [Bound.val (PyVal.str "p1x")] [Bound.none] 0 [some 1, some 2] =
      Except.error PyErr.valueError := by
  decide

/-- C3 counterexample: a callable bound returning positive infinity — not a
finite number — is used verbatim as the resolved bound rather than being
reported invalid and resolved to `None`, because the code checks
`isinstance(v_value, float)`, not finiteness. -/
theorem callable_bound_inf_counterexample :
    resolveOneBound [some 1, some 2]
        (Bound.callable (fun _ => PyVal.float PyFloat.posInf)) =
      Except.ok (some (PyVal.float PyFloat.posInf)) ∧
    PyFloat.isFinite PyFloat.posInf = false := by
  exact ⟨rfl, rfl⟩

/-- C3 (amended): for every callable bound, `_get_vmin_vmax` invokes the
callable on the panel's color vector; the result is used as the resolved
bound exactly when it is a Python `float` instance (finite or not), and any
non-float result (including a finite integer) is reported invalid and
resolved to `None`. -/
theorem callable_bound_float_instance (f : List (Option ℚ) → PyVal)
    (cv : List (Option ℚ)) :
    resolveOneBound cv (Bound.callable f) =
      Except.ok (match f cv with
        | PyVal.float x => some (PyVal.float x)
        | _ => none) := by
  cases h : f cv <;> simp [resolveOneBound, h]

/-- C4: component spec `"2,3"` on a 5-axis basis with no index offset yields
the single zero-based selection `(1,2)`, and spec `"all"` on a 4-axis basis
with 2D projection yields exactly the C(4,2)=6 ascending-order axis pairs. -/
theorem components_spec_examples :
    componentsForSlicing "umap" 5 false (Components.str "2,3") =
      Except.ok [[1, 2]] ∧
    componentsForSlicing "umap" 4 false (Components.str "all") =
      Except.ok [[0, 1], [0, 2], [0, 3], [1, 2], [1, 3], [2, 3]] := by
  exact ⟨by decide, by decide⟩

/-- C5: for the `diffmap` basis every requested component index is offset by
+1 at the coordinate-slicing step relative to any other basis, and the
returned `components_list` has that offset subtracted back out, so the
reported component labels coincide with those of an offset-free basis. -/
theorem diffmap_offset_slicing_reported (basis : String) (hb : basis ≠ "diffmap")
    (nAxes : ℕ) (proj3d : Bool) (comps : Components) :
    componentsForSlicing "diffmap" nAxes proj3d comps =
      (componentsForSlicing basis nAxes proj3d comps).map
        (List.map (List.map (fun n => n + 1))) ∧
    componentsReported "diffmap" nAxes proj3d comps =
      componentsReported basis nAxes proj3d comps := by
  have hfun : parseCompStr 1 = fun s =>
      (parseCompStr 0 s).map (List.map (fun n => n + 1)) :=
    funext (parseCompStr_offset 1)
  have haux : ∀ c : Components, componentsAux 1 c =
      (componentsAux 0 c).map (List.map (List.map (fun n => n + 1))) := by
    intro c
    cases c with
    | none => rfl
    | str s =>
      show (parseCompStr 1 s).map (fun c => [c]) =
        ((parseCompStr 0 s).map (fun c => [c])).map
          (List.map (List.map (fun n => n + 1)))
      rw [parseCompStr_offset 1 s]
      cases parseCompStr 0 s <;> rfl
    | ints l =>
      cases l with
      | nil => rfl
      | cons x xs =>
        show Except.ok [(x :: xs).map (fun y => y - 1 + 1)] =
          (Except.ok [(x :: xs).map (fun y => y - 1 + 0)]).map
            (List.map (List.map (fun n => n + 1)))
        have hcomp : (fun y : ℤ => y - 1 + 1) =
            ((fun n : ℤ => n + 1) ∘ fun y : ℤ => y - 1 + 0) := by
          funext y
          simp only [Function.comp_apply]
          ring
        rw [hcomp]
        simp only [Except.map, List.map_cons, List.map_nil, List.map_map,
          Function.comp_apply]
    | strs l =>
      cases l with
      | nil => rfl
      | cons t ts =>
        show (t :: ts).mapM (parseCompStr 1) =
          ((t :: ts).mapM (parseCompStr 0)).map
            (List.map (List.map (fun n => n + 1)))
        rw [hfun, mapM_except_map_comm]
  have h1 : componentsForSlicing "diffmap" nAxes proj3d comps =
      (componentsForSlicing basis nAxes proj3d comps).map
        (List.map (List.map (fun n => n + 1))) := by
    show componentsAux (if ("diffmap" : String) = "diffmap" then 1 else 0) _ =
      (componentsAux (if basis = "diffmap" then 1 else 0) _).map
        (List.map (List.map (fun n => n + 1)))
    rw [if_pos rfl, if_neg hb]
    exact haux _
  refine ⟨h1, ?_⟩
  unfold componentsReported
  rw [h1]
  cases componentsForSlicing basis nAxes proj3d comps with
  | error e => rfl
  | ok cl =>
    have hmm : (List.map (fun n : ℤ => n - 1) ∘ List.map (fun n : ℤ => n + 1)) =
        fun c : List ℤ => c := by
      funext c
      simp only [Function.comp_apply, List.map_map]
      have h2 : ((fun n : ℤ => n - 1) ∘ fun n : ℤ => n + 1) = id := by
        funext n
        simp
      rw [h2, List.map_id]
    simp only [Except.map, if_neg hb, List.map_map]
    simp [hmm]

/-- Witness for C5 at the concrete basis `"umap"` and spec `"2,3"`. -/
theorem diffmap_offset_slicing_reported_witness :
    ("umap" : String) ≠ "diffmap" ∧
    (componentsForSlicing "diffmap" 5 false (Components.str "2,3") =
      (componentsForSlicing "umap" 5 false (Components.str "2,3")).map
        (List.map (List.map (fun n => n + 1))) ∧
     componentsReported "diffmap" 5 false (Components.str "2,3") =
      componentsReported "umap" 5 false (Components.str "2,3")) :=
  ⟨by decide,
   diffmap_offset_slicing_reported "umap" (by decide) 5 false (Components.str "2,3")⟩

/-- Helper: an `argsortBy` result is a permutation of `0..n-1`. -/
theorem argsortBy_perm {α : Type} (lt : α → α → Bool) (key : List α) :
    (argsortBy lt key).Perm (List.range key.length) :=
  List.mergeSort_perm (List.range key.length) _

/-- Helper: gathering by a permutation of `range n` and then by its inverse
restores any length-`n` array. -/
theorem applyOrder_invOrder {α : Type} (o : List ℕ) (n : ℕ)
    (ho : o.Perm (List.range n)) (d : α) (xs : List α) (hxs : xs.length = n) :
    applyOrder (invOrder o) (applyOrder o xs d) d = xs := by
  have hlen : o.length = n := by
    have := ho.length_eq
    simpa using this
  have hmem : ∀ j, j < n → j ∈ o := by
    intro j hj
    have : j ∈ List.range n := List.mem_range.mpr hj
    exact (ho.mem_iff).mpr this
  apply List.ext_getElem
  · simp [applyOrder, invOrder, hlen, hxs]
  · intro i h1 h2
    have hi : i < n := by
      simpa [applyOrder, invOrder, hlen] using h1
    have himem : i ∈ o := hmem i hi
    have hidx : o.indexOf i < o.length := List.indexOf_lt_length.mpr himem
    have hgetidx : o[o.indexOf i] = i := List.getElem_indexOf hidx
    simp only [applyOrder, invOrder, List.getElem_map, List.getElem_range]
    rw [List.getD_eq_getElem?_getD,
      List.getElem?_eq_getElem (by simpa using hidx)]
    simp only [List.getElem_map, Option.getD_some]
    rw [hgetidx, List.getD_eq_getElem?_getD,
      List.getElem?_eq_getElem (by omega), Option.getD_some]

/-- C6: for every color vector of length N (continuous, possibly containing
nulls, or categorical with `sort_order` enabled), the draw order computed by
the orchestrator is a permutation of `0..N-1`, and gathering any length-N
per-point array (coordinates, per-point sizes, either color vector) by the
order and then by its inverse restores the original array. -/
theorem draw_order_perm_and_inverse (n : ℕ) (sortOrder : Bool)
    (valueToPlot : Option String) (categorical : Bool)
    (cv : List (Option ℚ)) (csv : List (Option String))
    (hcv : cv.length = n) (hcsv : csv.length = n) :
    (drawOrder n sortOrder valueToPlot categorical cv csv).Perm (List.range n) ∧
    ∀ (α : Type) (d : α) (xs : List α), xs.length = n →
      applyOrder (invOrder (drawOrder n sortOrder valueToPlot categorical cv csv))
        (applyOrder (drawOrder n sortOrder valueToPlot categorical cv csv) xs d) d
        = xs := by
  have hperm : (drawOrder n sortOrder valueToPlot categorical cv csv).Perm
      (List.range n) := by
    unfold drawOrder
    by_cases h1 : sortOrder = true ∧ valueToPlot ≠ none ∧ categorical = false
    · rw [if_pos h1]
      have hp := argsortBy_perm npLt (cv.map (Option.map (fun q => -q)))
      have hl : (cv.map (Option.map (fun q => -q))).length = n := by
        simp [hcv]
      exact (List.reverse_perm _).trans (hl ▸ hp)
    · rw [if_neg h1]
      by_cases h2 : sortOrder ∧ categorical
      · rw [if_pos h2]
        have hp := argsortBy_perm boolLt (csv.map (fun v => !v.isNone))
        have hl : (csv.map (fun v => !v.isNone)).length = n := by
          simp [hcsv]
        exact hl ▸ hp
      · rw [if_neg h2]
  exact ⟨hperm, fun α d xs hxs => applyOrder_invOrder _ n hperm d xs hxs⟩

/-- Witness for C6 on a concrete continuous color vector with a null entry. -/
theorem draw_order_perm_and_inverse_witness :
    (([some (1 : ℚ), none, some 0] : List (Option ℚ)).length = 3 ∧
     ([some "a", none, some "b"] : List (Option String)).length = 3) ∧
    (drawOrder 3 true (some "g") false [some 1, none, some 0]
      [some "a", none, some "b"]).Perm (List.range 3) ∧
    applyOrder
      (invOrder (drawOrder 3 true (some "g") false [some 1, none, some 0]
        [some "a", none, some "b"]))
      (applyOrder (drawOrder 3 true (some "g") false [some 1, none, some 0]
        [some "a", none, some "b"]) [10, 20, 30] (0 : ℚ)) 0 = [10, 20, 30] :=
  ⟨⟨rfl, rfl⟩,
   (draw_order_perm_and_inverse 3 true (some "g") false [some 1, none, some 0]
     [some "a", none, some "b"] rfl rfl).1,
   (draw_order_perm_and_inverse 3 true (some "g") false [some 1, none, some 0]
     [some "a", none, some "b"] rfl rfl).2 ℚ 0 [10, 20, 30] rfl⟩

theorem alookup_aset_self {β : Type} (m : List (String × β)) (k : String) (v : β) :
    alookup (aset m k v) k = some v := by
  induction m with
  | nil => simp [aset, alookup]
  | cons p rest ih =>
    obtain ⟨a, b⟩ := p
    by_cases h : a = k
    · simp [aset, alookup, h]
    · simp [aset, alookup, h, ih]

theorem aset_aset_self {β : Type} (m : List (String × β)) (k : String) (v w : β) :
    aset (aset m k v) k w = aset m k w := by
  induction m with
  | nil => simp [aset]
  | cons p rest ih =>
    obtain ⟨a, b⟩ := p
    by_cases h : a = k
    · simp [aset, h]
    · simp [aset, h, ih]

/-- Modelled from the spec: the default palette generator
`_set_default_colors_for_categorical_obs` lives in `scanpy.plotting._utils`,
which is not part of this repository slice.  Per the spec (section 3) a new palette
is generated deterministically from the category count. -/
theorem defaultColors_length (n : ℕ) : (defaultColors n).length = n := by
  simp [defaultColors]

/-- C1: for every categorical annotation, a successful `_get_palette` call
returns a label-to-color mapping whose key set is exactly the declared
category list (hence covers every present category, and its size is at least
the number of present categories), and calling `_get_palette` again on the
resulting container with the same arguments returns the same container and
the same colors. -/
theorem get_palette_covers_and_idempotent
    (adata : AnnData) (key : String) (pal : Option (List String))
    (c : Categorical) (a1 : AnnData) (d : List (String × String))
    (hobs : alookup adata.obs key = some c)
    (hwf : ∀ s : String, some s ∈ c.values → s ∈ c.categories)
    (hok : get_palette adata key pal = Except.ok (a1, d)) :
    d.map Prod.fst = c.categories ∧
    (∀ s : String, some s ∈ c.values → s ∈ d.map Prod.fst) ∧
    ((c.values.filterMap id).dedup).length ≤ d.length ∧
    get_palette a1 key pal = Except.ok (a1, d) := by
  have hcov : ∀ cs : List String, c.categories.length ≤ cs.length →
      ((c.categories.zip cs).map Prod.fst = c.categories ∧
       (∀ s : String, some s ∈ c.values → s ∈ (c.categories.zip cs).map Prod.fst) ∧
       ((c.values.filterMap id).dedup).length ≤ (c.categories.zip cs).length) := by
    intro cs hle
    have h1 : (c.categories.zip cs).map Prod.fst = c.categories :=
      List.map_fst_zip _ _ hle
    refine ⟨h1, ?_, ?_⟩
    · intro s hs
      rw [h1]
      exact hwf s hs
    · have hsub : (c.values.filterMap id).dedup ⊆ c.categories := by
        intro x hx
        have hx2 : x ∈ c.values.filterMap id := List.mem_dedup.mp hx
        rcases List.mem_filterMap.mp hx2 with ⟨a, ha, hfa⟩
        have hax : a = some x := hfa
        subst hax
        exact hwf x ha
      have hlen := (List.subperm_of_subset (List.nodup_dedup _) hsub).length_le
      rw [List.length_zip]
      omega
  unfold get_palette at hok
  simp only [hobs] at hok
  by_cases hpt : paletteTruthy pal = true
  · rw [if_pos hpt] at hok
    unfold set_colors_for_categorical_obs at hok
    simp only [hobs] at hok
    by_cases hlt : (pal.getD []).length < c.categories.length
    · rw [if_pos hlt] at hok
      exact absurd hok (by simp)
    · rw [if_neg hlt] at hok
      simp only [alookup_aset_self] at hok
      rw [Except.ok.injEq, Prod.mk.injEq] at hok
      obtain ⟨ha1, hd⟩ := hok
      subst ha1
      subst hd
      have hle : c.categories.length ≤ (pal.getD []).length := le_of_not_lt hlt
      refine ⟨(hcov _ hle).1, (hcov _ hle).2.1, (hcov _ hle).2.2, ?_⟩
      unfold get_palette set_colors_for_categorical_obs
      simp only [hobs, hpt, if_true, if_neg hlt, aset_aset_self, alookup_aset_self]
  · rw [if_neg hpt] at hok
    cases hcs : alookup adata.uns (key ++ "_colors") with
    | none =>
      simp only [hcs] at hok
      unfold set_default_colors_for_categorical_obs at hok
      simp only [hobs] at hok
      simp only [alookup_aset_self] at hok
      rw [Except.ok.injEq, Prod.mk.injEq] at hok
      obtain ⟨ha1, hd⟩ := hok
      subst ha1
      subst hd
      have hle : c.categories.length ≤ (defaultColors c.categories.length).length := by
        rw [defaultColors_length]
      refine ⟨(hcov _ hle).1, (hcov _ hle).2.1, (hcov _ hle).2.2, ?_⟩
      unfold get_palette set_default_colors_for_categorical_obs
      have hnlt : ¬ (defaultColors c.categories.length).length <
          c.categories.length := by
        rw [defaultColors_length]
        omega
      simp only [hobs, hpt, if_false, Bool.false_eq_true, alookup_aset_self,
        if_neg hnlt, validate_palette]
    | some cs =>
      simp only [hcs] at hok
      by_cases hlt : cs.length < c.categories.length
      · rw [if_pos hlt] at hok
        unfold set_default_colors_for_categorical_obs at hok
        simp only [hobs] at hok
        simp only [alookup_aset_self] at hok
        rw [Except.ok.injEq, Prod.mk.injEq] at hok
        obtain ⟨ha1, hd⟩ := hok
        subst ha1
        subst hd
        have hle : c.categories.length ≤
            (defaultColors c.categories.length).length := by
          rw [defaultColors_length]
        refine ⟨(hcov _ hle).1, (hcov _ hle).2.1, (hcov _ hle).2.2, ?_⟩
        unfold get_palette set_default_colors_for_categorical_obs
        have hnlt : ¬ (defaultColors c.categories.length).length <
            c.categories.length := by
          rw [defaultColors_length]
          omega
        simp only [hobs, hpt, if_false, Bool.false_eq_true, alookup_aset_self,
          if_neg hnlt, validate_palette]
      · rw [if_neg hlt] at hok
        unfold validate_palette at hok
        simp only [hcs] at hok
        rw [Except.ok.injEq, Prod.mk.injEq] at hok
        obtain ⟨ha1, hd⟩ := hok
        subst ha1
        subst hd
        have hle : c.categories.length ≤ cs.length := le_of_not_lt hlt
        refine ⟨(hcov _ hle).1, (hcov _ hle).2.1, (hcov _ hle).2.2, ?_⟩
        unfold get_palette validate_palette
        simp only [hobs, hpt, if_false, Bool.false_eq_true, hcs, if_neg hlt]

/-- Witness for C1: a two-category annotation with a missing value and no
cached palette; the default palette is generated and the call is idempotent
on the updated container. -/
theorem get_palette_covers_and_idempotent_witness :
    (alookup ([("louvain",
        Categorical.mk [some "A", none, some "B"] ["A", "B"])] :
        List (String × Categorical)) "louvain" =
      some (Categorical.mk [some "A", none, some "B"] ["A", "B"])) ∧
    (∀ s : String,
      some s ∈ (Categorical.mk [some "A", none, some "B"] ["A", "B"]).values →
      s ∈ (Categorical.mk [some "A", none, some "B"] ["A", "B"]).categories) ∧
    (get_palette
        (AnnData.mk [("louvain",
          Categorical.mk [some "A", none, some "B"] ["A", "B"])] [] 3)
        "louvain" none =
      Except.ok
        (AnnData.mk [("louvain",
          Categorical.mk [some "A", none, some "B"] ["A", "B"])]
          [("louvain_colors", defaultColors 2)] 3,
         ["A", "B"].zip (defaultColors 2))) ∧
    (["A", "B"].zip (defaultColors 2)).map Prod.fst = ["A", "B"] := by
  have hw : ∀ s : String,
      some s ∈ [some "A", none, some "B"] → s ∈ ["A", "B"] := by
    intro s hs
    simp only [List.mem_cons, List.not_mem_nil, or_false, Option.some.injEq] at hs
    simp only [List.mem_cons, List.not_mem_nil, or_false]
    tauto
  refine ⟨by decide, hw, by decide, ?_⟩
  exact (get_palette_covers_and_idempotent
    (AnnData.mk [("louvain",
      Categorical.mk [some "A", none, some "B"] ["A", "B"])] [] 3)
    "louvain" none
    (Categorical.mk [some "A", none, some "B"] ["A", "B"])
    (AnnData.mk [("louvain",
      Categorical.mk [some "A", none, some "B"] ["A", "B"])]
      [("louvain_colors", defaultColors 2)] 3)
    (["A", "B"].zip (defaultColors 2))
    (by decide) hw (by decide)).1

/-- C7: with no explicit `library_id`, `_check_spatial_data` raises the
ambiguity error when the spatial mapping holds two or more libraries,
auto-selects the sole library when it holds exactly one, and selects no
spatial metadata (both components `None`) when it holds none. -/
theorem check_spatial_data_library_selection {α : Type} (m : List (String × α)) :
    check_spatial_data (some m) LibraryArg.emptyArg =
      (match m with
       | [] => Except.ok (none, none)
       | [(k, v)] => Except.ok (some k, some v)
       | _ => Except.error PyErr.valueError) := by
  match m with
  | [] => rfl
  | [(k, v)] =>
    show check_spatial_data (some [(k, v)]) LibraryArg.emptyArg =
      Except.ok (some k, some v)
    simp [check_spatial_data, alookup]
  | (a, x) :: (b, y) :: t =>
    show check_spatial_data (some ((a, x) :: (b, y) :: t)) LibraryArg.emptyArg =
      Except.error PyErr.valueError
    simp only [check_spatial_data, Option.getD_some]
    have h2 : 1 < ((a, x) :: (b, y) :: t).length := by
      simp only [List.length_cons]
      omega
    rw [if_pos h2]

/-- C8: for every positive base marker size and positive outline widths, the
three concentric outlined draws satisfy background-ring area > gap-ring
area > foreground marker area. -/
theorem outline_ring_areas_ordered (s g b : ℝ)
    (hs : 0 < s) (hg : 0 < g) (hb : 0 < b) :
    outline_bg_size s g b > outline_gap_size s g ∧ outline_gap_size s g > s := by
  have hp2 : Real.sqrt s ^ 2 = s := Real.sq_sqrt hs.le
  have hgap : outline_gap_size s g = s * (1 + 2 * g) ^ 2 := by
    unfold outline_gap_size
    have hr : (Real.sqrt s + Real.sqrt s * g * 2) ^ 2 =
        Real.sqrt s ^ 2 * (1 + 2 * g) ^ 2 := by
      ring
    rw [hr, hp2]
  have hsq : Real.sqrt (outline_gap_size s g) = Real.sqrt s * (1 + 2 * g) := by
    have hr : outline_gap_size s g = (Real.sqrt s * (1 + 2 * g)) ^ 2 := by
      unfold outline_gap_size
      ring
    rw [hr, Real.sqrt_sq (by positivity)]
  have hbg : outline_bg_size s g b = s * (1 + 2 * g + 2 * b) ^ 2 := by
    unfold outline_bg_size
    rw [hsq]
    have hr : (Real.sqrt s * (1 + 2 * g) + Real.sqrt s * b * 2) ^ 2 =
        Real.sqrt s ^ 2 * (1 + 2 * g + 2 * b) ^ 2 := by
      ring
    rw [hr, hp2]
  constructor
  · rw [hbg, hgap]
    nlinarith [mul_pos hs hb, mul_pos (mul_pos hs hb) hg,
      mul_pos (mul_pos hs hb) hb]
  · rw [hgap]
    nlinarith [mul_pos hs hg, mul_pos (mul_pos hs hg) hg]

/-- Witness for C8 at size 1 and widths (1, 1). -/
theorem outline_ring_areas_ordered_witness :
    (0 : ℝ) < 1 ∧ (0 : ℝ) < 1 ∧ (0 : ℝ) < 1 ∧
    (outline_bg_size 1 1 1 > outline_gap_size 1 1 ∧ outline_gap_size 1 1 > 1) :=
  ⟨one_pos, one_pos, one_pos,
   outline_ring_areas_ordered 1 1 1 one_pos one_pos one_pos⟩

/-- C9: for a categorical color source containing missing values, the
missing color is appended only to the returned per-point color vector — the
container returned by `_color_vector` is exactly the one produced by
`_get_palette`, so the cached `<annotation>_colors` palette is untouched by
missing-value handling — and the legend composer extends only a local copy
of the palette with the `"NA"` entry. -/
theorem color_vector_missing_frame (adata : AnnData) (key : String)
    (pal : Option (List String)) (na : String) (c : Categorical)
    (a1 : AnnData) (d : List (String × String))
    (hok : get_palette adata key pal = Except.ok (a1, d))
    (hmiss : none ∈ c.values) :
    color_vector adata (some key) (ColorSource.cat c) pal na =
      Except.ok (a1, ColorVec.hexes (c.values.map (fun v =>
        some (((v.bind (fun s => alookup d s)).map to_hex).getD (to_hex na)))),
        true) ∧
    (∀ res : Categorical × List (String × String),
      add_categorical_legend c d na true = Except.ok res →
      res.2 = aset d "NA" na) := by
  constructor
  · unfold color_vector
    simp only [hok]
    have hany : (c.values.map
        (fun v => (v.bind (fun s => alookup d s)).map to_hex)).any
        Option.isNone = true := by
      rw [List.any_eq_true]
      exact ⟨none, List.mem_map.mpr ⟨none, hmiss, rfl⟩, rfl⟩
    rw [if_pos hany, List.map_map]
    rfl
  · intro res hres
    unfold add_categorical_legend at hres
    have hnull : isnullAny c = true := by
      unfold isnullAny
      rw [List.any_eq_true]
      exact ⟨none, hmiss, rfl⟩
    simp only [hnull, Bool.and_true, if_true] at hres
    by_cases hna : pdContains c "NA" = true
    · rw [if_pos hna] at hres
      cases hres
    · rw [if_neg hna] at hres
      cases hac : add_categories c "NA" with
      | error e =>
        rw [hac] at hres
        cases hres
      | ok c2 =>
        rw [hac] at hres
        injection hres with h
        rw [← h]

/-- Witness for C9 on the two-category annotation with a missing value. -/
theorem color_vector_missing_frame_witness :
    (get_palette
        (AnnData.mk [("louvain",
          Categorical.mk [some "A", none, some "B"] ["A", "B"])] [] 3)
        "louvain" none =
      Except.ok
        (AnnData.mk [("louvain",
          Categorical.mk [some "A", none, some "B"] ["A", "B"])]
          [("louvain_colors", defaultColors 2)] 3,
         ["A", "B"].zip (defaultColors 2))) ∧
    (none ∈ (Categorical.mk [some "A", none, some "B"] ["A", "B"]).values) ∧
    color_vector
        (AnnData.mk [("louvain",
          Categorical.mk [some "A", none, some "B"] ["A", "B"])] [] 3)
        (some "louvain")
        (ColorSource.cat (Categorical.mk [some "A", none, some "B"] ["A", "B"]))
        none "lightgray" =
      Except.ok
        (AnnData.mk [("louvain",
          Categorical.mk [some "A", none, some "B"] ["A", "B"])]
          [("louvain_colors", defaultColors 2)] 3,
         ColorVec.hexes
           ((Categorical.mk [some "A", none, some "B"] ["A", "B"]).values.map
             (fun v => some (((v.bind (fun s =>
               alookup (["A", "B"].zip (defaultColors 2)) s)).map to_hex).getD
               (to_hex "lightgray")))),
         true) := by
  refine ⟨by decide, by decide, ?_⟩
  exact (color_vector_missing_frame
    (AnnData.mk [("louvain",
      Categorical.mk [some "A", none, some "B"] ["A", "B"])] [] 3)
    "louvain" none "lightgray"
    (Categorical.mk [some "A", none, some "B"] ["A", "B"])
    (AnnData.mk [("louvain",
      Categorical.mk [some "A", none, some "B"] ["A", "B"])]
      [("louvain_colors", defaultColors 2)] 3)
    (["A", "B"].zip (defaultColors 2))
    (by decide) (by decide)).1

/-- C10 counterexample: `na_in_legend` is requested, the vector has a null
entry, and `"NA"` is a declared category, yet `_add_categorical_legend` does
not raise `NotImplementedError` — the `"NA" in color_source_vector` test is
value-presence, so the code falls through to `add_categories("NA")`, which
raises `ValueError` instead. -/
theorem na_legend_category_counterexample :
    isnullAny (Categorical.mk [some "a", none] ["a", "NA"]) = true ∧
    "NA" ∈ (Categorical.mk [some "a", none] ["a", "NA"]).categories ∧
    add_categorical_legend (Categorical.mk [some "a", none] ["a", "NA"])
        [("a", "red")] "lightgray" true ≠
      Except.error LegendErr.notImplemented ∧
    add_categorical_legend (Categorical.mk [some "a", none] ["a", "NA"])
        [("a", "red")] "lightgray" true =
      Except.error (LegendErr.pyErr PyErr.valueError) := by
  refine ⟨by decide, by decide, by decide, by decide⟩

/-- C10 (amended): when `na_in_legend` is requested, the vector contains null
entries, and the literal string `"NA"` occurs among the vector's values, the
legend composer raises `NotImplementedError` instead of rendering a
legend. -/
theorem na_legend_raises (csv : Categorical)
    (palette : List (String × String)) (na_color : String)
    (hnull : isnullAny csv = true) (hcontains : pdContains csv "NA" = true) :
    add_categorical_legend csv palette na_color true =
      Except.error LegendErr.notImplemented := by
  unfold add_categorical_legend
  rw [hnull]
  simp only [Bool.and_true, if_true]
  rw [if_pos hcontains]

/-- Witness for C10 on a vector where `"NA"` occurs as a value. -/
theorem na_legend_raises_witness :
    isnullAny (Categorical.mk [some "NA", none] ["NA"]) = true ∧
    pdContains (Categorical.mk [some "NA", none] ["NA"]) "NA" = true ∧
    add_categorical_legend (Categorical.mk [some "NA", none] ["NA"])
        [("NA", "red")] "lightgray" true =
      Except.error LegendErr.notImplemented :=
  ⟨by decide, by decide,
   na_legend_raises (Categorical.mk [some "NA", none] ["NA"])
     [("NA", "red")] "lightgray" (by decide) (by decide)⟩

end Scatter
